import Mathlib

/-!
Verification development for `crates/krilla/scripts/generate_tags.py`, a
schema-driven generator that emits Rust source text for PDF structure-element
tags.  The Python module consists of a constant schema (`TAG_SCHEMA`), a name
transformer (`snake_case`), and a family of text-emitting functions.  We embed
the schema, the name transformer, the text emitters and a semantic model of
the emitted per-tag bucket accessors, and prove the frozen claims about them.

Conventions of the embedding:
* Python dicts with fixed keys become structures; a missing `required` /
  `optional` key is embedded as the empty list (every read site in the source
  treats a missing key and an empty list identically: `if 'required' in
  attrs:` loops, `attrs.get('required', [])`, truthiness tests, and
  `'optional' in attrs and any(...)` guards).
* The source reads the module-level constant `TAG_SCHEMA` inside several
  functions; the embedding passes the schema as an explicit parameter and
  instantiates it with the transcribed constant.
* Python `str` values become Lean `String`; `str.replace`, `str.startswith`,
  `str.join` and slicing are given explicit executable models on `List Char`
  below.  Some characters of the emitted Rust text are written with `\x`
  escapes inside string literals.
-/

namespace GenTags

/-- Model of Python `sep.join(parts)`. -/
def joinSep (sep : String) : List String → String
  | [] => ""
  | [x] => x
  | x :: y :: xs => x ++ sep ++ joinSep sep (y :: xs)

/-- Fuel-indexed worker for `str.replace`: replaces every non-overlapping
occurrence of `pat` (assumed nonempty at all call sites, as in the source)
by `repl`, scanning left to right. -/
def replFuel : Nat → List Char → List Char → List Char → List Char
  | _, [], _, _ => []
  | 0, s, _, _ => s
  | Nat.succ n, c :: rest, pat, repl =>
    if pat ≠ [] ∧ pat.isPrefixOf (c :: rest) then
      repl ++ replFuel n (List.drop (pat.length - 1) rest) pat repl
    else
      c :: replFuel n rest pat repl

/-- Model of Python `s.replace(pat, repl)` for nonempty `pat`. -/
def sRepl (s pat repl : String) : String :=
  ⟨replFuel s.data.length s.data pat.data repl.data⟩

/-- Model of Python `s.split('\n')[0]`. -/
def firstLine (s : String) : String :=
  ⟨s.data.takeWhile (fun c => c ≠ '\n')⟩

/-- Model of Python `s.startswith(p)`. -/
def strStartsWith (s p : String) : Bool :=
  p.data.isPrefixOf s.data

/-- One attribute of the schema: the dicts appearing in `required`,
`optional` and `global_attrs` lists of `TAG_SCHEMA`.  `doc` and `category`
keys are optional in the source dicts. -/
structure AttrSpec where
  name : String
  type : String
  doc : Option String := none
  category : Option String := none
deriving DecidableEq, Repr

/-- The `attrs` dict of one tag; missing keys are embedded as `[]`. -/
structure Attrs where
  required : List AttrSpec := []
  optional : List AttrSpec := []
deriving DecidableEq, Repr

/-- One entry of `TAG_SCHEMA["tags"]`. -/
structure TagSpec where
  name : String
  doc : String
  attrs : Attrs := {}
deriving DecidableEq, Repr

/-- The whole schema dict. -/
structure Schema where
  tags : List TagSpec
  global_attrs : List AttrSpec
deriving DecidableEq, Repr

/-- `TAG_SCHEMA["tags"]`, transcribed from the source. -/
def TAGS : List TagSpec := [
  ⟨"Part", "A part of a document that may contain multiple articles or sections.", {}⟩,
  ⟨"Article", "An article with largely self-contained content.", {}⟩,
  ⟨"Section", "Section of a larger document.", {}⟩,
  ⟨"BlockQuote", "A paragraph-level quote.", {}⟩,
  ⟨"Caption", "An image or figure caption.\n\n**Best Practice**: In the tag tree, this should appear\nas a sibling after the image (or other) content it describes.", {}⟩,
  ⟨"TOC", "Table of contents.\n\n**Best Practice**: Should consist of TOCIs or other nested TOCs.", {}⟩,
  ⟨"TOCI", "Item in the table of contents.\n\n**Best Practice**: Should only appear within a TOC. Should only consist of\nlabels, references, paragraphs and TOCs.", {}⟩,
  ⟨"Index", "Index of the key terms in the document.\n\n**Best Practice**: Should contain a sequence of text accompanied by\nreference elements pointing to their occurrence in the text.", {}⟩,
  ⟨"P", "A paragraph.", {}⟩,
  ⟨"Hn", "Heading level \x60n\x60, including an optional title of the heading.\n\nThe title is required for some export modes, like for example PDF/UA.",
    ⟨[⟨"level", "NonZeroU32", some ("The heading level"), none⟩], []⟩⟩,
  ⟨"L", "A list.\n\n**Best practice**: Should consist of an optional caption followed by\nlist items.",
    ⟨[⟨"numbering", "ListNumbering", some ("The list numbering style"), none⟩], []⟩⟩,
  ⟨"LI", "A list item.\n\n**Best practice**: Should consist of one or more list labels and/or list bodies.", {}⟩,
  ⟨"Lbl", "Label for a list item.", {}⟩,
  ⟨"LBody", "Description of the list item.", {}⟩,
  ⟨"Table", "A table, with an optional summary describing the purpose and structure.\n\n**Best practice**: Should consist of an optional table header row,\none or more table body elements and an optional table footer. Can have\ncaption as the first or last child.",
    ⟨[], [⟨"summary", "String", none, some ("table_attr")⟩,
          ⟨"bbox", "Rect", none, some ("layout_attr")⟩,
          ⟨"width", "f32", none, some ("layout_attr")⟩,
          ⟨"height", "f32", none, some ("layout_attr")⟩]⟩⟩,
  ⟨"TR", "A table row.\n\n**Best practice**: May contain table headers cells and table data cells.", {}⟩,
  ⟨"TH", "A table header cell.",
    ⟨[⟨"scope", "TableHeaderScope", some ("The scope of this header cell"), none⟩],
     [⟨"headers", "SmallVec<[TagId; 1]>", none, some ("table_attr")⟩,
      ⟨"span", "TableCellSpan", none, some ("table_attr")⟩,
      ⟨"width", "f32", none, some ("layout_attr")⟩,
      ⟨"height", "f32", none, some ("layout_attr")⟩]⟩⟩,
  ⟨"TD", "A table data cell.",
    ⟨[], [⟨"headers", "SmallVec<[TagId; 1]>", none, some ("table_attr")⟩,
          ⟨"span", "TableCellSpan", none, some ("table_attr")⟩,
          ⟨"width", "f32", none, some ("layout_attr")⟩,
          ⟨"height", "f32", none, some ("layout_attr")⟩]⟩⟩,
  ⟨"THead", "A table header row group.", {}⟩,
  ⟨"TBody", "A table data row group.", {}⟩,
  ⟨"TFoot", "A table footer row group.", {}⟩,
  ⟨"InlineQuote", "An inline quotation.", {}⟩,
  ⟨"Note", "A foot- or endnote, potentially referred to from within the text.\n\n**Best practice**: It may have a label as a child.", {}⟩,
  ⟨"Reference", "A reference to elsewhere in the document.\n\n**Best practice**: The first child of a tag group with this tag should be a link annotation\nlinking to a destination in the document, and the second child should consist of\nthe children that should be associated with that reference.", {}⟩,
  ⟨"BibEntry", "A reference to the external source of some cited document.\n\n**Best practice**: It may have a label as a child.", {}⟩,
  ⟨"Code", "Computer code.", {}⟩,
  ⟨"Link", "A link.\n\n**Best practice**: The first child of a tag group with this tag should be a link annotation\nlinking to an URL, and the second child should consist of the children that should\nbe associated with that link.", {}⟩,
  ⟨"Annot", "An association between an annotation and the content it belongs to. PDF\n\n**Best practice**: Should be used for all annotations, except for link annotations and\nwidget annotations. The first child should be the identifier of a non-link annotation,\nand all other subsequent children should be content identifiers associated with that\nannotation.", {}⟩,
  ⟨"Figure", "Item of graphical content.\n\nProviding alt_text is required in some export modes, like for example PDF/UA1.",
    ⟨[], [⟨"bbox", "Rect", none, some ("layout_attr")⟩,
          ⟨"width", "f32", none, some ("layout_attr")⟩,
          ⟨"height", "f32", none, some ("layout_attr")⟩]⟩⟩,
  ⟨"Formula", "A mathematical formula.\n\nProviding alt_text is required in some export modes, like for example PDF/UA1.",
    ⟨[], [⟨"bbox", "Rect", none, some ("layout_attr")⟩,
          ⟨"width", "f32", none, some ("layout_attr")⟩,
          ⟨"height", "f32", none, some ("layout_attr")⟩]⟩⟩,
  ⟨"Datetime", "A date or time.", {}⟩,
  ⟨"Terms", "A list of terms.", {}⟩,
  ⟨"Title", "A title.", {}⟩]

/-- `TAG_SCHEMA["global_attrs"]`, transcribed from the source. -/
def GLOBAL_ATTRS : List AttrSpec := [
  ⟨"id", "Option<TagId>", some ("The tag identifier"), none⟩,
  ⟨"lang", "Option<String>", some ("The language of this tag"), none⟩,
  ⟨"alt_text", "Option<String>", some ("An optional alternate text that describes the text"), none⟩,
  ⟨"expanded", "Option<String>", some ("If the content is an abbreviation, the expanded form"), none⟩,
  ⟨"actual_text", "Option<String>", some ("The actual text represented by the content"), none⟩,
  ⟨"location", "Option<Location>", some ("The location of the tag"), none⟩,
  ⟨"placement", "Option<Placement>", some ("The positioning of the element"), none⟩,
  ⟨"writing_mode", "Option<WritingMode>", some ("The writing mode"), none⟩,
  ⟨"title", "Option<String>", some ("The title of the element"), none⟩]

/-- The constant `TAG_SCHEMA` of the source. -/
def TAG_SCHEMA : Schema := ⟨TAGS, GLOBAL_ATTRS⟩

/-- `True` when the tag declares an optional attribute called `n`; embeds the
source pattern `'optional' in attrs and any(a['name'] == n for a in
attrs['optional'])`. -/
def hasOpt (tag : TagSpec) (n : String) : Bool :=
  tag.attrs.optional.any (fun a => a.name == n)

/-!
## Semantic model of the emitted bucket accessors

`generate_accessor_impl_for_tag` emits, per tag, Rust methods `attrs`,
`list_attrs`, `table_attrs` and `layout_attrs` that push entries into a
`BSet` depending on which fields of the tag struct hold a value.  We model
the runtime state of a generated tag struct as a record of `Option`-valued
fields (`TagState`), and each emitted method as a Lean function from that
state to the list of pushed entries, following the emitted `if let
Some(...)` chains branch by branch.  `V` abstracts the payload values the
generated Rust code clones or copies into the entries.
-/

/-- Runtime state of a generated tag struct: the nine global fields, the
three required fields occurring in the schema (`level`, `numbering`,
`scope`; required fields are always present), and the six optional
tag-local fields occurring in the schema. -/
structure TagState (V : Type) where
  id : Option V
  lang : Option V
  alt_text : Option V
  expanded : Option V
  actual_text : Option V
  location : Option V
  placement : Option V
  writing_mode : Option V
  title : Option V
  level : V
  numbering : V
  scope : V
  summary : Option V
  headers : Option V
  span : Option V
  bbox : Option V
  width : Option V
  height : Option V

/-- Entries of the generated general bucket (Rust enum `Attr`). -/
inductive GAttr (V : Type) : Type
  | Id : V → GAttr V
  | Title : V → GAttr V
  | Lang : V → GAttr V
  | AltText : V → GAttr V
  | Expanded : V → GAttr V
  | ActualText : V → GAttr V
  | HeadingLevel : V → GAttr V

/-- Entries of the generated list bucket (Rust enum `ListAttr`). -/
inductive LAttr (V : Type) : Type
  | Numbering : V → LAttr V

/-- Entries of the generated table bucket (Rust enum `TableAttr`). -/
inductive TAttr (V : Type) : Type
  | Summary : V → TAttr V
  | HeaderScope : V → TAttr V
  | CellHeaders : V → TAttr V
  | CellSpan : V → TAttr V

/-- Entries of the generated layout bucket (Rust enum `LayoutAttr`). -/
inductive YAttr (V : Type) : Type
  | Placement : V → YAttr V
  | WritingMode : V → YAttr V
  | BBox : V → YAttr V
  | Width : V → YAttr V
  | Height : V → YAttr V

/-- Constructor labels of `GAttr`. -/
inductive GKind | kId | kTitle | kLang | kAltText | kExpanded | kActualText | kHeadingLevel
deriving DecidableEq, Repr

/-- Constructor labels of `LAttr`. -/
inductive LKind | kNumbering
deriving DecidableEq, Repr

/-- Constructor labels of `TAttr`. -/
inductive TKind | kSummary | kHeaderScope | kCellHeaders | kCellSpan
deriving DecidableEq, Repr

/-- Constructor labels of `YAttr`. -/
inductive YKind | kPlacement | kWritingMode | kBBox | kWidth | kHeight
deriving DecidableEq, Repr

def GAttr.kind : GAttr V → GKind
  | .Id _ => .kId
  | .Title _ => .kTitle
  | .Lang _ => .kLang
  | .AltText _ => .kAltText
  | .Expanded _ => .kExpanded
  | .ActualText _ => .kActualText
  | .HeadingLevel _ => .kHeadingLevel

def LAttr.kind : LAttr V → LKind
  | .Numbering _ => .kNumbering

def TAttr.kind : TAttr V → TKind
  | .Summary _ => .kSummary
  | .HeaderScope _ => .kHeaderScope
  | .CellHeaders _ => .kCellHeaders
  | .CellSpan _ => .kCellSpan

def YAttr.kind : YAttr V → YKind
  | .Placement _ => .kPlacement
  | .WritingMode _ => .kWritingMode
  | .BBox _ => .kBBox
  | .Width _ => .kWidth
  | .Height _ => .kHeight

/-- The entries pushed by an emitted `if let Some(x) = field { push(f(x)) }`
block: one entry when the field holds a value, none otherwise. -/
def pushOpt (o : Option V) (f : V → α) : List α :=
  match o with
  | some v => [f v]
  | none => []

/-- Semantics of the emitted `attrs()` method: the six unconditional global
pushes (in emitted order id, title, lang, alt_text, expanded, actual_text),
plus the unconditional `HeadingLevel` push emitted only for the tag named
`Hn` (`attrs_impl_extra` in the source). -/
def attrsBucket (tag : TagSpec) (s : TagState V) : List (GAttr V) :=
  pushOpt s.id GAttr.Id ++ pushOpt s.title GAttr.Title ++ pushOpt s.lang GAttr.Lang ++
  pushOpt s.alt_text GAttr.AltText ++ pushOpt s.expanded GAttr.Expanded ++
  pushOpt s.actual_text GAttr.ActualText ++
  (if tag.name == "Hn" then [GAttr.HeadingLevel s.level] else [])

/-- Semantics of the emitted `list_attrs()` method: the tag named `L` pushes
its required `numbering` unconditionally; every other tag returns the empty
set. -/
def listAttrsBucket (tag : TagSpec) (s : TagState V) : List (LAttr V) :=
  if tag.name == "L" then [LAttr.Numbering s.numbering] else []

/-- Semantics of the emitted `table_attrs()` method, following the four
emission sites of the source in order: `Table` with a declared `summary`
optional, the unconditional `HeaderScope` push for `TH`, and the
`headers` / `span` pushes for `TH` and `TD` when declared. -/
def tableAttrsBucket (tag : TagSpec) (s : TagState V) : List (TAttr V) :=
  (if tag.name == "Table" && hasOpt tag ("summary") then pushOpt s.summary TAttr.Summary else []) ++
  (if tag.name == "TH" then [TAttr.HeaderScope s.scope] else []) ++
  (if (tag.name == "TH" || tag.name == "TD") && hasOpt tag ("headers") then pushOpt s.headers TAttr.CellHeaders else []) ++
  (if (tag.name == "TH" || tag.name == "TD") && hasOpt tag ("span") then pushOpt s.span TAttr.CellSpan else [])

/-- Semantics of the emitted `layout_attrs()` method: `placement` and
`writing_mode` checks are emitted for every tag; `bbox`, `width`, `height`
checks only for tags declaring those optional attributes. -/
def layoutAttrsBucket (tag : TagSpec) (s : TagState V) : List (YAttr V) :=
  pushOpt s.placement YAttr.Placement ++ pushOpt s.writing_mode YAttr.WritingMode ++
  (if hasOpt tag ("bbox") then pushOpt s.bbox YAttr.BBox else []) ++
  (if hasOpt tag ("width") then pushOpt s.width YAttr.Width else []) ++
  (if hasOpt tag ("height") then pushOpt s.height YAttr.Height else [])

/-- Number of general-bucket entries with label `k`. -/
def countG (k : GKind) (l : List (GAttr V)) : Nat :=
  l.countP (fun e => decide (e.kind = k))

/-- Number of list-bucket entries with label `k`. -/
def countL (k : LKind) (l : List (LAttr V)) : Nat :=
  l.countP (fun e => decide (e.kind = k))

/-- Number of table-bucket entries with label `k`. -/
def countT (k : TKind) (l : List (TAttr V)) : Nat :=
  l.countP (fun e => decide (e.kind = k))

/-- Number of layout-bucket entries with label `k`. -/
def countY (k : YKind) (l : List (YAttr V)) : Nat :=
  l.countP (fun e => decide (e.kind = k))

/-- The tag named `Hn` of the schema. -/
def hnTag : TagSpec := TAGS.getD 9 ⟨"", "", {}⟩

/-- The tag named `TH` of the schema. -/
def thTag : TagSpec := TAGS.getD 16 ⟨"", "", {}⟩

lemma countP_pushOpt (o : Option V) (f : V → α) (p : α → Bool) (b : Bool)
    (h : ∀ v, p (f v) = b) :
    (pushOpt o f).countP p = if o.isSome then (if b then 1 else 0) else 0 := by
  cases o <;> simp [pushOpt, List.countP_cons, h]

lemma countP_ite (c : Prop) [Decidable c] (l l' : List α) (p : α → Bool) :
    (if c then l else l').countP p = if c then l.countP p else l'.countP p := by
  split <;> rfl

/-!
## Bucket membership per attribute (claim C1)

Each bucket-entry constructor carries the value of exactly one schema
attribute (`Id` carries `id`, `HeadingLevel` carries `level`, and so on,
following the `self.<field>` read in each emitted push).  The maps below
record, per attribute name, which entry label the generated code uses for
it in each bucket — `none` when no emitted push of that bucket ever reads
the attribute.  No label in any bucket corresponds to the global
`location` attribute: no emitted push reads `self.location`.
-/

/-- General-bucket entry label reading the named attribute, if any. -/
def gKindForName (an : String) : Option GKind :=
  if an == "id" then some GKind.kId
  else if an == "title" then some GKind.kTitle
  else if an == "lang" then some GKind.kLang
  else if an == "alt_text" then some GKind.kAltText
  else if an == "expanded" then some GKind.kExpanded
  else if an == "actual_text" then some GKind.kActualText
  else if an == "level" then some GKind.kHeadingLevel
  else none

/-- List-bucket entry label reading the named attribute, if any. -/
def lKindForName (an : String) : Option LKind :=
  if an == "numbering" then some LKind.kNumbering else none

/-- Table-bucket entry label reading the named attribute, if any. -/
def tKindForName (an : String) : Option TKind :=
  if an == "summary" then some TKind.kSummary
  else if an == "scope" then some TKind.kHeaderScope
  else if an == "headers" then some TKind.kCellHeaders
  else if an == "span" then some TKind.kCellSpan
  else none

/-- Layout-bucket entry label reading the named attribute, if any. -/
def yKindForName (an : String) : Option YKind :=
  if an == "placement" then some YKind.kPlacement
  else if an == "writing_mode" then some YKind.kWritingMode
  else if an == "bbox" then some YKind.kBBox
  else if an == "width" then some YKind.kWidth
  else if an == "height" then some YKind.kHeight
  else none

/-- Total number of entries, across all four emitted buckets, that carry
the value of the attribute named `an` of tag `tag` in state `s`. -/
def entryCountFor (tag : TagSpec) (s : TagState V) (an : String) : Nat :=
  (match gKindForName an with
   | some k => countG k (attrsBucket tag s)
   | none => 0) +
  (match lKindForName an with
   | some k => countL k (listAttrsBucket tag s)
   | none => 0) +
  (match tKindForName an with
   | some k => countT k (tableAttrsBucket tag s)
   | none => 0) +
  (match yKindForName an with
   | some k => countY k (layoutAttrsBucket tag s)
   | none => 0)

/-- Whether the attribute named `an` holds a value in state `s`: optional
and global fields hold a value when `some`; required fields (`level`,
`numbering`, `scope` — the fall-through branch) are always present. -/
def presentIn (s : TagState V) (an : String) : Bool :=
  if an == "id" then s.id.isSome
  else if an == "lang" then s.lang.isSome
  else if an == "alt_text" then s.alt_text.isSome
  else if an == "expanded" then s.expanded.isSome
  else if an == "actual_text" then s.actual_text.isSome
  else if an == "location" then s.location.isSome
  else if an == "placement" then s.placement.isSome
  else if an == "writing_mode" then s.writing_mode.isSome
  else if an == "title" then s.title.isSome
  else if an == "summary" then s.summary.isSome
  else if an == "headers" then s.headers.isSome
  else if an == "span" then s.span.isSome
  else if an == "bbox" then s.bbox.isSome
  else if an == "width" then s.width.isSome
  else if an == "height" then s.height.isSome
  else true

/-- Names of all attributes attached to a tag's record: the global
attributes followed by the tag's required and optional attributes. -/
def declaredAttrNames (sch : Schema) (tag : TagSpec) : List String :=
  sch.global_attrs.map (fun a => a.name) ++
  (tag.attrs.required.map (fun a => a.name) ++
   tag.attrs.optional.map (fun a => a.name))

/-- The tag named `P` of the schema. -/
def pTag : TagSpec := TAGS.getD 8 ⟨"", "", {}⟩

/-- A concrete state whose only present optional field is `location`. -/
def sLoc : TagState Nat :=
  ⟨none, none, none, none, none, some 0, none, none, none, 0, 0, 0,
   none, none, none, none, none, none⟩

/-- Claim C1 as stated: every attribute of every schema tag (global or
tag-local) whose value is present is carried by exactly one entry across
the four emitted buckets — in particular each of the nine global
attributes, including `location`. -/
def Claim1 : Prop :=
  ∀ (tag : TagSpec), tag ∈ TAG_SCHEMA.tags →
    ∀ (s : TagState Nat) (an : String), an ∈ declaredAttrNames TAG_SCHEMA tag →
      presentIn s an = true → entryCountFor tag s an = 1

/-- C4 — For the heading tag `Hn`, the emitted general-bucket accessor
`attrs` always contains exactly one heading-level entry, whatever the
present/absent status of the global attribute fields. -/
theorem c4_hn_heading_level (V : Type) (s : TagState V) :
    countG GKind.kHeadingLevel (attrsBucket hnTag s) = 1 := by
  simp [countG, attrsBucket, hnTag, TAGS, List.countP_append,
    countP_pushOpt (b := false), countP_pushOpt (b := true), GAttr.kind]

/-- C5 — For the table-header-cell tag `TH`, the emitted table-bucket
accessor always contains exactly one header-scope entry, a cell-headers
entry exactly when the optional `headers` field holds a value, and a
cell-span entry exactly when the optional `span` field holds a value. -/
theorem c5_th_table_bucket (V : Type) (s : TagState V) :
    countT TKind.kHeaderScope (tableAttrsBucket thTag s) = 1 ∧
    countT TKind.kCellHeaders (tableAttrsBucket thTag s) = (if s.headers.isSome then 1 else 0) ∧
    countT TKind.kCellSpan (tableAttrsBucket thTag s) = (if s.span.isSome then 1 else 0) := by
  refine ⟨?_, ?_, ?_⟩ <;>
    simp [countT, tableAttrsBucket, thTag, TAGS, hasOpt, List.countP_append,
      countP_pushOpt (b := false), countP_pushOpt (b := true), TAttr.kind]

lemma countG_formula (tag : TagSpec) (s : TagState V) (k : GKind) :
    countG k (attrsBucket tag s) =
      (match k with
       | .kId => if s.id.isSome then 1 else 0
       | .kTitle => if s.title.isSome then 1 else 0
       | .kLang => if s.lang.isSome then 1 else 0
       | .kAltText => if s.alt_text.isSome then 1 else 0
       | .kExpanded => if s.expanded.isSome then 1 else 0
       | .kActualText => if s.actual_text.isSome then 1 else 0
       | .kHeadingLevel => if tag.name == "Hn" then 1 else 0) := by
  cases k <;>
    simp [countG, attrsBucket, List.countP_append, countP_ite, List.countP_cons,
      countP_pushOpt (b := false), countP_pushOpt (b := true), GAttr.kind]

lemma countL_formula (tag : TagSpec) (s : TagState V) (k : LKind) :
    countL k (listAttrsBucket tag s) =
      (match k with
       | .kNumbering => if tag.name == "L" then 1 else 0) := by
  cases k
  simp [countL, listAttrsBucket, countP_ite, List.countP_cons, LAttr.kind]

lemma countT_formula (tag : TagSpec) (s : TagState V) (k : TKind) :
    countT k (tableAttrsBucket tag s) =
      (match k with
       | .kSummary =>
         if tag.name == "Table" && hasOpt tag ("summary") then
           (if s.summary.isSome then 1 else 0) else 0
       | .kHeaderScope => if tag.name == "TH" then 1 else 0
       | .kCellHeaders =>
         if (tag.name == "TH" || tag.name == "TD") && hasOpt tag ("headers") then
           (if s.headers.isSome then 1 else 0) else 0
       | .kCellSpan =>
         if (tag.name == "TH" || tag.name == "TD") && hasOpt tag ("span") then
           (if s.span.isSome then 1 else 0) else 0) := by
  cases k <;>
    simp [countT, tableAttrsBucket, List.countP_append, countP_ite, List.countP_cons,
      countP_pushOpt (b := false), countP_pushOpt (b := true), TAttr.kind]

lemma countY_formula (tag : TagSpec) (s : TagState V) (k : YKind) :
    countY k (layoutAttrsBucket tag s) =
      (match k with
       | .kPlacement => if s.placement.isSome then 1 else 0
       | .kWritingMode => if s.writing_mode.isSome then 1 else 0
       | .kBBox => if hasOpt tag ("bbox") then (if s.bbox.isSome then 1 else 0) else 0
       | .kWidth => if hasOpt tag ("width") then (if s.width.isSome then 1 else 0) else 0
       | .kHeight => if hasOpt tag ("height") then (if s.height.isSome then 1 else 0) else 0) := by
  cases k <;>
    simp [countY, layoutAttrsBucket, List.countP_append, countP_ite, List.countP_cons,
      countP_pushOpt (b := false), countP_pushOpt (b := true), YAttr.kind]

/-- The global-attribute half of C1, uniform in the tag: every present
global attribute is carried by exactly one bucket entry except
`location`, which is carried by none. -/
lemma c1_globals (tag : TagSpec) (s : TagState V) (an : String)
    (han : an ∈ GLOBAL_ATTRS.map (fun a => a.name)) (hp : presentIn s an = true) :
    entryCountFor tag s an = (if an == "location" then 0 else 1) := by
  have hm : an ∈ ["id", "lang", "alt_text", "expanded", "actual_text", "location",
      "placement", "writing_mode", "title"] := by
    simpa [GLOBAL_ATTRS] using han
  fin_cases hm <;>
    simp_all [entryCountFor, gKindForName, lKindForName, tKindForName, yKindForName,
      presentIn, countG_formula, countL_formula, countT_formula, countY_formula]

/-- C1 (counterexample) — the claim fails for the global `location`
attribute: on the tag `P` with `location` present, no emitted bucket
carries a `location` entry, so the total is `0`, not `1`. -/
theorem c1_counterexample : ¬ Claim1 := by
  intro h
  have h1 := h pTag (by decide) sLoc ("location") (by decide) (by decide)
  exact absurd h1 (by decide)

/-- C1 (amended) — every present attribute of every schema tag is carried
by exactly one entry across the four emitted buckets, with the single
exception of the global `location` attribute, which is carried by no
bucket entry at all (it is exposed only through the trait's `location`
accessor, never pushed into a bucket). -/
theorem c1_bucket_partition (V : Type) (tag : TagSpec) (htag : tag ∈ TAG_SCHEMA.tags)
    (s : TagState V) (an : String) (han : an ∈ declaredAttrNames TAG_SCHEMA tag)
    (hp : presentIn s an = true) :
    entryCountFor tag s an = (if an == "location" then 0 else 1) := by
  rcases List.mem_append.1 (by simpa only [declaredAttrNames, TAG_SCHEMA] using han)
    with hg | hl
  · exact c1_globals tag s an hg hp
  · simp only [TAG_SCHEMA, TAGS] at htag
    fin_cases htag <;>
      fin_cases hl <;>
      simp_all [entryCountFor, gKindForName, lKindForName, tKindForName,
        yKindForName, presentIn, countG_formula, countL_formula,
        countT_formula, countY_formula, hasOpt]

/-- C1 (witness) — the amended theorem applied to the heading tag's
required `level` attribute at a concrete state. -/
theorem c1_bucket_partition_witness :
    entryCountFor hnTag sLoc ("level") = (if ("level" == "location") then 0 else 1) :=
  c1_bucket_partition Nat hnTag (by decide) sLoc ("level") (by decide) (by decide)

/-!
## The name transformer `snake_case`

Embedded over `List Char`; Python's `str.isupper` / `str.islower` /
`str.lower` coincide with `Char.isUpper` / `Char.isLower` / `Char.toLower`
on the ASCII identifiers the schema contains.  Out-of-range indexing never
occurs in the source (the accesses `name[i+1]` and `name[i-1]` are guarded),
so the `getD` default is never read.
-/

/-- The underscore character. -/
def und : Char := '_'

/-- The underscore-insertion condition of the source, with Python's
`and` / `or` precedence made explicit:
`char.isupper() and i > 0 and (i + 1 < len(name) and name[i + 1].islower()
or name[i - 1].islower())`. -/
def snakeCond (name : List Char) (i : Nat) : Bool :=
  (name.getD i default).isUpper && decide (0 < i) &&
    ((decide (i + 1 < name.length) && (name.getD (i + 1) default).isLower) ||
     (name.getD (i - 1) default).isLower)

/-- The `snake_case` function of the source: for each index, optionally an
underscore, then the lower-cased character. -/
def snake_case (name : List Char) : List Char :=
  ((List.range name.length).map (fun i =>
    (if snakeCond name i then [und] else []) ++ [(name.getD i default).toLower])).flatten

/-- The boundary rule in the words of the claim: a boundary at position
`i` exactly when `i > 0`, the character is uppercase, and either the
following character exists and is lowercase or the preceding character is
lowercase. -/
def specBoundary (name : List Char) (i : Nat) : Bool :=
  decide (0 < i) && (name.getD i default).isUpper &&
    ((decide (i + 1 < name.length) && (name.getD (i + 1) default).isLower) ||
     (name.getD (i - 1) default).isLower)

/-- The transformation described by the claim, built from `specBoundary`. -/
def snakeSpec (name : List Char) : List Char :=
  ((List.range name.length).map (fun i =>
    (if specBoundary name i then [und] else []) ++ [(name.getD i default).toLower])).flatten

lemma snakeCond_eq_specBoundary (name : List Char) (i : Nat) :
    snakeCond name i = specBoundary name i := by
  unfold snakeCond specBoundary
  cases h1 : (name.getD i default).isUpper <;> cases h2 : (decide (0 < i)) <;> simp

lemma upper_not_lower (c : Char) (h : c.isUpper = true) : c.isLower = false := by
  simp only [Char.isUpper, Char.isLower, Bool.and_eq_true, decide_eq_true_eq] at h ⊢
  obtain ⟨h1, h2⟩ := h
  have n1 : (65 : Nat) ≤ c.val.toNat := h1
  have n2 : c.val.toNat ≤ (90 : Nat) := h2
  rw [Bool.and_eq_false_iff]
  left
  simp only [decide_eq_false_iff_not]
  intro hc
  have n3 : (97 : Nat) ≤ c.val.toNat := hc
  omega

lemma specBoundary_false_of_upper (name : List Char)
    (h : ∀ c ∈ name, c.isUpper = true) (i : Nat) (hi : i < name.length) :
    specBoundary name i = false := by
  unfold specBoundary
  rcases Nat.eq_zero_or_pos i with rfl | hpos
  · simp
  · have hprev : (name.getD (i - 1) default).isLower = false := by
      have hlt : i - 1 < name.length := lt_of_le_of_lt (Nat.sub_le i 1) hi
      rw [List.getD_eq_getElem name default hlt]
      exact upper_not_lower _ (h _ (List.getElem_mem hlt))
    have hX : (decide (i + 1 < name.length) && (name.getD (i + 1) default).isLower) = false := by
      by_cases hn : i + 1 < name.length
      · have hnext : (name.getD (i + 1) default).isLower = false := by
          rw [List.getD_eq_getElem name default hn]
          exact upper_not_lower _ (h _ (List.getElem_mem hn))
        rw [hnext, Bool.and_false]
      · rw [decide_eq_false hn, Bool.false_and]
    rw [hX, hprev, Bool.or_false, Bool.and_false]

lemma flatten_singletons (l : List α) (f : α → β) :
    (l.map (fun x => [f x])).flatten = l.map f := by
  induction l <;> simp [*]

/-- C3 — the name transformer lower-cases every character and inserts an
underscore before position `i` exactly when `i > 0`, the character there
is uppercase, and either the following character exists and is lowercase
or the preceding character is lowercase (`snakeSpec` states the claim's
rule verbatim); consequently an all-caps input comes out as its plain
character-wise lower-casing, with no underscore inserted. -/
theorem c3_snake_case_rule (name : List Char) :
    snake_case name = snakeSpec name ∧
    ((∀ c ∈ name, c.isUpper = true) → snake_case name = name.map Char.toLower) := by
  have hmap : ∀ (g : List Char),
      (List.range g.length).map (fun i => (g.getD i default).toLower) = g.map Char.toLower := by
    intro g
    apply List.ext_getElem (by simp)
    intro i h1 h2
    simp only [List.getElem_map, List.getElem_range]
    rw [List.getD_eq_getElem g default (by simpa using h2)]
  constructor
  · unfold snake_case snakeSpec
    congr 1
    apply List.map_congr_left
    intro i _
    rw [snakeCond_eq_specBoundary]
  · intro h
    unfold snake_case
    have hsteps : (List.range name.length).map (fun i =>
        (if snakeCond name i then [und] else []) ++ [(name.getD i default).toLower]) =
        (List.range name.length).map (fun i => [(name.getD i default).toLower]) := by
      apply List.map_congr_left
      intro i hi
      rw [snakeCond_eq_specBoundary,
        specBoundary_false_of_upper name h i (List.mem_range.1 hi)]
      simp
    rw [hsteps, flatten_singletons]
    exact hmap name

/-- C3 (witness) — the rule applied to the all-caps input `TOCI`: the
output is the plain lower-casing `toci`, containing no underscore. -/
theorem c3_snake_case_rule_witness :
    snake_case ("TOCI").data = snakeSpec ("TOCI").data ∧
    snake_case ("TOCI").data = ("TOCI").data.map Char.toLower :=
  ⟨(c3_snake_case_rule (("TOCI").data)).1,
   (c3_snake_case_rule (("TOCI").data)).2 (by decide)⟩

/-!
## The text emitters

Faithful transcriptions of the Python f-string templates.  Literal brace,
apostrophe and backtick characters of the emitted Rust text are written
with `\x` escapes.  Functions that read the module constant `TAG_SCHEMA`
in the source take the schema as the parameter `sch` here.
-/

/-- The `{name}Tag` struct name used throughout the emitters. -/
def struct_name (tag : TagSpec) : String :=
  tag.name ++ "Tag"

/-- One rendered struct-field line for a global attribute (the first loop
of `generate_struct_fields`). -/
def renderGlobalField (a : AttrSpec) : String :=
  (match a.doc with
   | some d => "    /// " ++ d ++ "\n"
   | none => "") ++ "    pub " ++ a.name ++ ": " ++ a.type ++ ","

/-- One rendered struct-field line for a required attribute (the second
loop of `generate_struct_fields`; same template as the global loop). -/
def renderRequiredField (a : AttrSpec) : String :=
  (match a.doc with
   | some d => "    /// " ++ d ++ "\n"
   | none => "") ++ "    pub " ++ a.name ++ ": " ++ a.type ++ ","

/-- Wrapping of an optional attribute's type: `Option<...>` unless the
schema type already starts with `Option<`. -/
def wrapOptional (t : String) : String :=
  if strStartsWith t ("Option<") then t else "Option<" ++ t ++ ">"

/-- One rendered struct-field line for an optional attribute (the third
loop of `generate_struct_fields`): the doc falls back to
`The {name} attribute` and the type is wrapped by `wrapOptional`. -/
def renderOptionalField (a : AttrSpec) : String :=
  "    /// " ++ (a.doc.getD ("The " ++ a.name ++ " attribute")) ++ "\n" ++
  "    pub " ++ a.name ++ ": " ++ wrapOptional a.type ++ ","

/-- The `fields` list built by `generate_struct_fields`: globals, then
required, then optional. -/
def generate_struct_fields_list (attrs : Attrs) (global_attrs : List AttrSpec) : List String :=
  global_attrs.map renderGlobalField ++
  attrs.required.map renderRequiredField ++
  attrs.optional.map renderOptionalField

/-- `generate_struct_fields`: the rendered field lines joined by newlines. -/
def generate_struct_fields (attrs : Attrs) (global_attrs : List AttrSpec) : String :=
  joinSep "\n" (generate_struct_fields_list attrs global_attrs)

/-- `generate_constructor`: the `new` method text; parameters are exactly
the required attributes, and every optional and global field is
initialised to `None`. -/
def generate_constructor (sch : Schema) (tag_name : String) (attrs : Attrs) : String :=
  let required := attrs.required
  let param_str := joinSep ", " (required.map (fun a => a.name ++ ": " ++ a.type))
  let inits :=
    required.map (fun a => "            " ++ a.name ++ ",") ++
    attrs.optional.map (fun a => "            " ++ a.name ++ ": None,") ++
    sch.global_attrs.map (fun a => "            " ++ a.name ++ ": None,")
  let init_str := joinSep "\n" inits
  if required.isEmpty then
    "\n    /// Create a new " ++ tag_name ++ " tag.\n    pub fn new() -> Self \x7b\n        Self \x7b\n" ++ init_str ++ "\n        \x7d\n    \x7d"
  else
    "\n    /// Create a new " ++ tag_name ++ " tag.\n    pub fn new(" ++ param_str ++ ") -> Self \x7b\n        Self \x7b\n" ++ init_str ++ "\n        \x7d\n    \x7d"

/-- The `with_{name}` setter name used by `generate_builder_methods`. -/
def setter_name (a : AttrSpec) : String :=
  "with_" ++ a.name

/-- One builder method for a tag-local optional attribute. -/
def renderOptionalBuilder (a : AttrSpec) : String :=
  "\n    /// " ++ (a.doc.getD ("Set the " ++ a.name)) ++
  "\n    pub fn " ++ setter_name a ++ "(mut self, " ++ a.name ++ ": " ++ a.type ++ ") -> Self \x7b\n        self." ++ a.name ++ " = Some(" ++ a.name ++ ");\n        self\n    \x7d"

/-- One builder method for a global attribute; the parameter type strips
the `Option<` wrapper via the source's `replace` calls. -/
def renderGlobalBuilder (a : AttrSpec) : String :=
  "\n    /// " ++ (a.doc.getD ("Set the " ++ a.name)) ++
  "\n    pub fn " ++ setter_name a ++ "(mut self, " ++ a.name ++ ": " ++
  (sRepl (sRepl a.type ("Option<") ("")) (">") ("")) ++
  ") -> Self \x7b\n        self." ++ a.name ++ " = Some(" ++ a.name ++ ");\n        self\n    \x7d"

/-- `generate_builder_methods`: setters for the tag's optional attributes,
then for the global attributes whose name is in the hard-coded nine-name
list of the source. -/
def generate_builder_methods (sch : Schema) (_tag_name : String) (attrs : Attrs) : String :=
  joinSep "\n"
    (attrs.optional.map renderOptionalBuilder ++
     (sch.global_attrs.filter (fun a =>
        ["id", "lang", "alt_text", "expanded", "actual_text", "location",
         "placement", "writing_mode", "title"].contains a.name)).map renderGlobalBuilder)

/-- `generate_accessor_impl_for_tag`: the text of the four bucket-accessor
methods for one tag. -/
def generate_accessor_impl_for_tag (tag : TagSpec) : String :=
  let name := tag.name
  let list_attrs_impl : String :=
    if name == "L" then
      "\n        let mut attrs = BSet::new();\n        attrs.items.push(ListAttr::Numbering(self.numbering));\n        attrs"
    else "BSet::new()"
  let table_attrs_items : List String :=
    (if name == "Table" && hasOpt tag ("summary") then
      ["\n        if let Some(ref summary) = self.summary \x7b\n            attrs.items.push(TableAttr::Summary(summary.clone()));\n        \x7d"]
     else []) ++
    (if name == "TH" then
      ["\n        attrs.items.push(TableAttr::HeaderScope(self.scope));"]
     else []) ++
    (if (name == "TH" || name == "TD") && hasOpt tag ("headers") then
      ["\n        if let Some(ref headers) = self.headers \x7b\n            attrs.items.push(TableAttr::CellHeaders(headers.clone()));\n        \x7d"]
     else []) ++
    (if (name == "TH" || name == "TD") && hasOpt tag ("span") then
      ["\n        if let Some(ref span) = self.span \x7b\n            attrs.items.push(TableAttr::CellSpan(*span));\n        \x7d"]
     else [])
  let table_attrs_impl : String :=
    if table_attrs_items.isEmpty then "BSet::new()"
    else "\n        let mut attrs = BSet::new();" ++ joinSep "" table_attrs_items ++ "\n        attrs"
  let layout_attrs_impl : String :=
    "\n        let mut attrs = BSet::new();\n        if let Some(ref placement) = self.placement \x7b\n            attrs.items.push(LayoutAttr::Placement(*placement));\n        \x7d\n        if let Some(ref writing_mode) = self.writing_mode \x7b\n            attrs.items.push(LayoutAttr::WritingMode(*writing_mode));\n        \x7d" ++
    joinSep ""
      ((if hasOpt tag ("bbox") then
        ["\n        if let Some(ref bbox) = self.bbox \x7b\n            attrs.items.push(LayoutAttr::BBox(*bbox));\n        \x7d"]
       else []) ++
       (if hasOpt tag ("width") then
        ["\n        if let Some(width) = self.width \x7b\n            attrs.items.push(LayoutAttr::Width(width));\n        \x7d"]
       else []) ++
       (if hasOpt tag ("height") then
        ["\n        if let Some(height) = self.height \x7b\n            attrs.items.push(LayoutAttr::Height(height));\n        \x7d"]
       else [])) ++
    "\n        attrs"
  let attrs_impl_extra : String :=
    if name == "Hn" then "\n        attrs.items.push(Attr::HeadingLevel(self.level));" else ""
  "\n// Additional accessor methods for mod.rs compatibility\nimpl " ++ struct_name tag ++ " \x7b\n    /// Get the attributes as internal BSet types.\n    pub(crate) fn attrs(&self) -> BSet<Attr> \x7b\n        let mut attrs = BSet::new();\n        if let Some(ref id) = self.id \x7b\n            attrs.items.push(Attr::Id(id.clone()));\n        \x7d\n        if let Some(ref title) = self.title \x7b\n            attrs.items.push(Attr::Title(title.clone()));\n        \x7d\n        if let Some(ref lang) = self.lang \x7b\n            attrs.items.push(Attr::Lang(lang.clone()));\n        \x7d\n        if let Some(ref alt_text) = self.alt_text \x7b\n            attrs.items.push(Attr::AltText(alt_text.clone()));\n        \x7d\n        if let Some(ref expanded) = self.expanded \x7b\n            attrs.items.push(Attr::Expanded(expanded.clone()));\n        \x7d\n        if let Some(ref actual_text) = self.actual_text \x7b\n            attrs.items.push(Attr::ActualText(actual_text.clone()));\n        \x7d" ++ attrs_impl_extra ++ "\n        attrs\n    \x7d\n    \n    pub(crate) fn list_attrs(&self) -> BSet<ListAttr> \x7b" ++ list_attrs_impl ++ "\n    \x7d\n    \n    pub(crate) fn table_attrs(&self) -> BSet<TableAttr> \x7b" ++ table_attrs_impl ++ "\n    \x7d\n    \n    pub(crate) fn layout_attrs(&self) -> BSet<LayoutAttr> \x7b" ++ layout_attrs_impl ++ "\n    \x7d\n\x7d"

/-- The doc transformation of `generate_tag_struct`: the replacement of
double newlines runs first, so the single-newline replacement also
rewrites the newlines just inserted; finally backticks become
apostrophes. -/
def structDoc (d : String) : String :=
  sRepl (sRepl (sRepl d ("\n\n") ("\n///\n/// ")) ("\n") (" ")) ("\x60") ("\x27")

/-- `generate_tag_struct`: doc comment, derive, struct declaration,
`impl` with constructor and builders, accessor impl, and a `Default`
impl exactly when the tag has no required attributes. -/
def generate_tag_struct (sch : Schema) (tag : TagSpec) : String :=
  let fields := generate_struct_fields tag.attrs sch.global_attrs
  let constructor := generate_constructor sch tag.name tag.attrs
  let builders := generate_builder_methods sch tag.name tag.attrs
  let accessor_impl := generate_accessor_impl_for_tag tag
  let default_impl : String :=
    if tag.attrs.required.isEmpty then
      "\nimpl Default for " ++ struct_name tag ++ " \x7b\n    fn default() -> Self \x7b\n        Self::new()\n    \x7d\n\x7d"
    else ""
  "\n/// " ++ structDoc tag.doc ++ "\n#[derive(Clone, Debug, PartialEq)]\npub struct " ++ struct_name tag ++ " \x7b\n" ++ fields ++ "\n\x7d\n\nimpl " ++ struct_name tag ++ " \x7b" ++ constructor ++ builders ++ "\n\x7d\n" ++ accessor_impl ++ default_impl

/-- The doc transformation of the enum-variant loop (same double-newline
quirk, with deeper `///` indentation). -/
def variantDoc (d : String) : String :=
  sRepl (sRepl (sRepl d ("\n\n") ("\n    ///\n    /// ")) ("\n") (" ")) ("\x60") ("\x27")

/-- One `TagKind` enum variant: the variant is the tag name verbatim and
holds the tag's struct. -/
def variantDecl (tag : TagSpec) : String :=
  "\n    /// " ++ variantDoc tag.doc ++ "\n    " ++ tag.name ++ "(" ++ struct_name tag ++ "),"

/-- One `From<{name}Tag> for TagKind` conversion. -/
def fromImpl (tag : TagSpec) : String :=
  "\nimpl From<" ++ struct_name tag ++ "> for TagKind \x7b\n    fn from(tag: " ++ struct_name tag ++ ") -> Self \x7b\n        TagKind::" ++ tag.name ++ "(tag)\n    \x7d\n\x7d"

/-- One match arm of the `inner()` dispatch accessor. -/
def innerArm (tag : TagSpec) : String :=
  "            TagKind::" ++ tag.name ++ "(tag) => tag,"

/-- `generate_tag_accessor_methods`: narrow accessors for `Hn`, `L` and
`TH`, then the two fixed classification predicates. -/
def generate_tag_accessor_methods (tags : List TagSpec) : String :=
  joinSep ""
    ((tags.map (fun t =>
      if t.name == "Hn" then
        "\n    /// Get the heading level if this is an Hn tag.\n    pub(crate) fn heading_level(&self) -> Option<NonZeroU32> \x7b\n        match self \x7b\n            TagKind::Hn(tag) => Some(tag.level),\n            _ => None,\n        \x7d\n    \x7d"
      else if t.name == "L" then
        "\n    /// Get the list numbering if this is an L tag.\n    pub(crate) fn list_numbering(&self) -> Option<ListNumbering> \x7b\n        match self \x7b\n            TagKind::L(tag) => Some(tag.numbering),\n            _ => None,\n        \x7d\n    \x7d"
      else if t.name == "TH" then
        "\n    /// Get the header scope if this is a TH tag.\n    pub(crate) fn header_scope(&self) -> Option<TableHeaderScope> \x7b\n        match self \x7b\n            TagKind::TH(tag) => Some(tag.scope),\n            _ => None,\n        \x7d\n    \x7d"
      else "")).filter (fun s => !s.isEmpty) ++
     ["\n    /// Check if this tag should have alt text.\n    pub(crate) fn should_have_alt(&self) -> bool \x7b\n        matches!(self, TagKind::Figure(_) | TagKind::Formula(_))\n    \x7d\n    \n    /// Check if this tag can have a title.\n    pub(crate) fn can_have_title(&self) -> bool \x7b\n        matches!(self, TagKind::Hn(_))\n    \x7d"])

/-- `generate_tag_kind_enum`: the `TagKind` enum, its `inner()` dispatch,
the narrow accessors, and one `From` impl per tag. -/
def generate_tag_kind_enum (tags : List TagSpec) : String :=
  "\n/// A tag kind.\n#[derive(Clone, Debug, PartialEq)]\npub enum TagKind \x7b" ++
  joinSep "" (tags.map variantDecl) ++
  "\n\x7d\n\nimpl TagKind \x7b\n    /// Get a reference to the inner tag\x27s global attributes.\n    pub fn inner(&self) -> &dyn TagTrait \x7b\n        match self \x7b\n" ++
  joinSep "\n" (tags.map innerArm) ++
  "\n        \x7d\n    \x7d\n" ++
  generate_tag_accessor_methods tags ++
  "\n\x7d\n" ++
  joinSep "\n" (tags.map fromImpl)

/-- `generate_tag_trait`: the fixed `TagTrait` interface text. -/
def generate_tag_trait : String :=
  "\n/// Trait for accessing common tag attributes.\npub trait TagTrait \x7b\n    /// Get the tag identifier.\n    fn id(&self) -> Option<&TagId>;\n    /// Get the language.\n    fn lang(&self) -> Option<&str>;\n    /// Get the alternate text.\n    fn alt_text(&self) -> Option<&str>;\n    /// Get the expanded form.\n    fn expanded(&self) -> Option<&str>;\n    /// Get the actual text.\n    fn actual_text(&self) -> Option<&str>;\n    /// Get the location.\n    fn location(&self) -> Option<&Location>;\n    /// Get the placement.\n    fn placement(&self) -> Option<&Placement>;\n    /// Get the writing mode.\n    fn writing_mode(&self) -> Option<&WritingMode>;\n    \n    /// Get the title.\n    fn title(&self) -> Option<&str>;\n    /// Get the headers.\n    fn headers(&self) -> Option<&[TagId]>;\n    \n    /// Get the general attributes.\n    fn attrs(&self) -> BSet<Attr>;\n    /// Get the list attributes.\n    fn list_attrs(&self) -> BSet<ListAttr>;\n    /// Get the table attributes.\n    fn table_attrs(&self) -> BSet<TableAttr>;\n    /// Get the layout attributes.\n    fn layout_attrs(&self) -> BSet<LayoutAttr>;\n\x7d\n\n// Re-export internal types for use in crate\npub(crate) use crate::interchange::tagging::tag::internal::\x7bAttr, ListAttr, TableAttr, LayoutAttr, BSet\x7d;"

/-- Whether the tag declares a `headers` optional attribute — the
`has_headers` test of `generate_tag_trait_impl`. -/
def has_headers (tag : TagSpec) : Bool :=
  tag.attrs.optional.any (fun a => a.name == "headers")

/-- The emitted body of the trait's `headers` accessor: present-logic on
the record's `headers` field exactly when the tag declares one, the
constant `None` otherwise. -/
def headers_impl (tag : TagSpec) : String :=
  if has_headers tag then "self.headers.as_ref().map(|v| v.as_slice())" else "None"

/-- Semantics of the emitted `headers` accessor: the record's `headers`
field as a view when the tag declares the attribute, absent otherwise. -/
def headersAccessor (tag : TagSpec) (s : TagState V) : Option V :=
  if has_headers tag then s.headers else none

/-- `generate_tag_trait_impl`: the `TagTrait` implementation text for one
tag's struct. -/
def generate_tag_trait_impl (tag : TagSpec) : String :=
  "\nimpl TagTrait for " ++ struct_name tag ++ " \x7b\n    fn id(&self) -> Option<&TagId> \x7b self.id.as_ref() \x7d\n    fn lang(&self) -> Option<&str> \x7b self.lang.as_deref() \x7d\n    fn alt_text(&self) -> Option<&str> \x7b self.alt_text.as_deref() \x7d\n    fn expanded(&self) -> Option<&str> \x7b self.expanded.as_deref() \x7d\n    fn actual_text(&self) -> Option<&str> \x7b self.actual_text.as_deref() \x7d\n    fn location(&self) -> Option<&Location> \x7b self.location.as_ref() \x7d\n    fn placement(&self) -> Option<&Placement> \x7b self.placement.as_ref() \x7d\n    fn writing_mode(&self) -> Option<&WritingMode> \x7b self.writing_mode.as_ref() \x7d\n    fn title(&self) -> Option<&str> \x7b self.title.as_deref() \x7d\n    fn headers(&self) -> Option<&[TagId]> \x7b " ++ headers_impl tag ++ " \x7d\n    \n    fn attrs(&self) -> BSet<Attr> \x7b self.attrs() \x7d\n    fn list_attrs(&self) -> BSet<ListAttr> \x7b self.list_attrs() \x7d\n    fn table_attrs(&self) -> BSet<TableAttr> \x7b self.table_attrs() \x7d\n    fn layout_attrs(&self) -> BSet<LayoutAttr> \x7b self.layout_attrs() \x7d\n\x7d"

/-- First line of the tag doc with backticks replaced, as used by the
facade. -/
def conv_doc (tag : TagSpec) : String :=
  sRepl (firstLine tag.doc) ("\x60") ("\x27")

/-- Parameter list of a facade entry point: exactly the tag's required
attributes, in schema order. -/
def conv_params (tag : TagSpec) : List String :=
  tag.attrs.required.map (fun a => a.name ++ ": " ++ a.type)

/-- The record-construction expression of a facade entry point (the
`init` variable of the source; computed in both branches, used only in
the function branch). -/
def conv_init (tag : TagSpec) : String :=
  if tag.attrs.required.isEmpty then
    struct_name tag ++ "::new()"
  else
    struct_name tag ++ "::new(" ++ joinSep ", " (tag.attrs.required.map (fun a => a.name)) ++ ")"

/-- The hard-coded global-field initialisers of the facade's `const`
branch, followed by the tag's optional fields. -/
def conv_const_inits (tag : TagSpec) : List String :=
  ["        id: None,", "        lang: None,", "        alt_text: None,",
   "        expanded: None,", "        actual_text: None,", "        location: None,",
   "        placement: None,", "        writing_mode: None,", "        title: None,"] ++
  tag.attrs.optional.map (fun a => "        " ++ a.name ++ ": None,")

/-- One facade entry point: a `pub fn {name}(...)` when the tag has
required attributes, a `pub const {name}` otherwise; both produce
`TagKind::{name}(...)`. -/
def conv_entry (tag : TagSpec) : String :=
  if tag.attrs.required.isEmpty then
    "\n    /// " ++ conv_doc tag ++ "\n    pub const " ++ tag.name ++ ": TagKind = TagKind::" ++ tag.name ++ "(" ++ struct_name tag ++ " \x7b\n" ++ joinSep "\n" (conv_const_inits tag) ++ "\n    \x7d);"
  else
    "\n    /// " ++ conv_doc tag ++ "\n    pub fn " ++ tag.name ++ "(" ++ joinSep ", " (conv_params tag) ++ ") -> TagKind \x7b\n        TagKind::" ++ tag.name ++ "(" ++ conv_init tag ++ ")\n    \x7d"

/-- `generate_convenience_constructors`: the `Tag` facade with one entry
per schema tag. -/
def generate_convenience_constructors (sch : Schema) : String :=
  "\n/// Convenience constructors for tags.\npub struct Tag;\n\nimpl Tag \x7b" ++
  joinSep "" (sch.tags.map conv_entry) ++ "\n\x7d"

/-- The fixed file header emitted first. -/
def fileHeader : String :=
  "// Generated tag definitions for PDF structure elements.\n// This file is auto-generated by scripts/generate_tags.py - DO NOT EDIT MANUALLY!\n\n// Types are imported in tag.rs\n"

/-- The `components` list assembled by `generate_rust_code`: header,
trait, per-tag struct and trait impl, enum, facade. -/
def components (sch : Schema) : List String :=
  [fileHeader, generate_tag_trait] ++
  (sch.tags.flatMap (fun t => [generate_tag_struct sch t, generate_tag_trait_impl t])) ++
  [generate_tag_kind_enum sch.tags, generate_convenience_constructors sch]

/-- `generate_rust_code`: the components joined by newlines. -/
def generate_rust_code (sch : Schema) : String :=
  joinSep "\n" (components sch)

/-!
## Schema validation (claim C2) and determinism (claim C9)

`generate_rust_code` contains no validation of any kind: it is a total
function of the schema that always assembles and joins the full component
list.
-/

/-- Whether two tags of the schema share a name. -/
def hasDupTagNames (sch : Schema) : Prop :=
  ¬ (sch.tags.map (fun t => t.name)).Nodup

/-- A schema whose two tags both carry the name `P`. -/
def sch2 : Schema :=
  ⟨[⟨"P", "A paragraph.", {}⟩, ⟨"P", "A paragraph.", {}⟩], []⟩

/-- Claim C2 as stated: on a schema with duplicate tag names, generation
fails before any output is emitted — i.e. no generated text is produced. -/
def Claim2 : Prop :=
  ∀ sch : Schema, hasDupTagNames sch → generate_rust_code sch = ""

lemma joinSep_cons_ne_empty (sep x : String) (l : List String) (hx : x ≠ "") :
    joinSep sep (x :: l) ≠ "" := by
  cases l with
  | nil => simpa [joinSep] using hx
  | cons y ys =>
    simp only [joinSep]
    intro h
    apply hx
    have hd : x.data ++ (sep.data ++ (joinSep sep (y :: ys)).data) = [] := by
      have := congrArg String.data h
      simpa using this
    exact String.ext (List.append_eq_nil.1 hd).1

/-- Generation never fails and never produces empty output: the join of
the components starts with the nonempty file header. -/
lemma generate_rust_code_ne_empty (sch : Schema) : generate_rust_code sch ≠ "" := by
  have hshape : generate_rust_code sch =
      joinSep "\n" (fileHeader :: ([generate_tag_trait] ++
        (sch.tags.flatMap (fun t => [generate_tag_struct sch t, generate_tag_trait_impl t])) ++
        [generate_tag_kind_enum sch.tags, generate_convenience_constructors sch])) := rfl
  rw [hshape]
  exact joinSep_cons_ne_empty _ _ _ (by decide)

lemma flatMap_pair_length (l : List TagSpec) (f g : TagSpec → String) :
    (l.flatMap (fun t => [f t, g t])).length = 2 * l.length := by
  induction l with
  | nil => rfl
  | cons x xs ih =>
    simp only [List.flatMap_cons, List.length_append, List.length_cons, List.length_nil, ih]
    omega

/-- C2 (counterexample) — on the concrete duplicate schema `sch2` the
generator does not fail: it produces (nonempty) output whose fragment
list contains the identical `P` struct definition twice, and the
generated type names collide (`PTag` appears twice); hence Claim 2 is
false. -/
theorem c2_counterexample :
    hasDupTagNames sch2 ∧
    generate_rust_code sch2 ≠ "" ∧
    ¬ (sch2.tags.map struct_name).Nodup ∧
    (components sch2).getD 2 ("") = (components sch2).getD 4 ("") ∧
    ¬ Claim2 := by
  refine ⟨by unfold hasDupTagNames; decide, generate_rust_code_ne_empty sch2,
    by simp [sch2, struct_name], rfl, ?_⟩
  intro h
  exact generate_rust_code_ne_empty sch2 (h sch2 (by unfold hasDupTagNames; decide))

/-- C2 (amended) — the generator performs no duplicate-name validation:
even when the schema contains two tags sharing a name, generation
proceeds and emits the full component list — header, trait, one struct
fragment and one trait-impl fragment per schema tag (duplicates
included), enum and facade — producing nonempty output with the
colliding definitions rather than failing. -/
theorem c2_no_duplicate_validation (sch : Schema) (_hdup : hasDupTagNames sch) :
    generate_rust_code sch ≠ "" ∧
    (components sch).length = 2 * sch.tags.length + 4 := by
  refine ⟨generate_rust_code_ne_empty sch, ?_⟩
  unfold components
  rw [List.length_append, List.length_append,
    flatMap_pair_length sch.tags (fun t => generate_tag_struct sch t) (fun t => generate_tag_trait_impl t)]
  simp only [List.length_cons, List.length_nil]
  omega

/-- C2 (witness) — the amended theorem applied to the duplicate schema
`sch2`. -/
theorem c2_no_duplicate_validation_witness :
    generate_rust_code sch2 ≠ "" ∧ (components sch2).length = 2 * sch2.tags.length + 4 :=
  c2_no_duplicate_validation sch2 (by unfold hasDupTagNames; decide)

/-- C9 — generation is deterministic: any two outputs produced by running
the generator on the same schema value are byte-identical.  (The embedded
generator is a pure function; the source likewise contains no source of
nondeterminism — it iterates fixed literal lists and dicts only.) -/
theorem c9_deterministic (sch : Schema) (out1 out2 : String)
    (h1 : out1 = generate_rust_code sch) (h2 : out2 = generate_rust_code sch) :
    out1 = out2 := by
  rw [h1, h2]

/-- C9 (witness) — two runs over the transcribed `TAG_SCHEMA` agree. -/
theorem c9_deterministic_witness :
    generate_rust_code TAG_SCHEMA = generate_rust_code TAG_SCHEMA :=
  c9_deterministic TAG_SCHEMA (generate_rust_code TAG_SCHEMA) (generate_rust_code TAG_SCHEMA) rfl rfl

/-- The tag named `Table` of the schema. -/
def tableTag : TagSpec := TAGS.getD 14 ⟨"", "", {}⟩

/-- The tag named `L` of the schema. -/
def lTag : TagSpec := TAGS.getD 10 ⟨"", "", {}⟩

lemma wrapOptional_startsWith (t : String) :
    strStartsWith (wrapOptional t) ("Option<") = true := by
  unfold wrapOptional
  split
  · assumption
  · unfold strStartsWith
    rw [List.isPrefixOf_iff_prefix]
    show ("Option<").data <+: (("Option<" ++ t ++ ">")).data
    simp only [String.data_append, List.append_assoc]
    exact List.prefix_append _ _

/-- C6 — for every schema tag, the emitted record has exactly
`|global attrs| + |required| + |optional|` fields (with nine global
attributes); the field lines are, in order, the rendered global
attributes, then the tag's required attributes (typed verbatim per
schema), then its optional attributes; every global field type is
already nullable (`Option<...>`), every required field type is not, and
every rendered optional field type is nullable after wrapping. -/
theorem c6_record_fields (tag : TagSpec) (htag : tag ∈ TAG_SCHEMA.tags) :
    (generate_struct_fields_list tag.attrs TAG_SCHEMA.global_attrs).length =
      TAG_SCHEMA.global_attrs.length + tag.attrs.required.length + tag.attrs.optional.length ∧
    TAG_SCHEMA.global_attrs.length = 9 ∧
    generate_struct_fields_list tag.attrs TAG_SCHEMA.global_attrs =
      TAG_SCHEMA.global_attrs.map renderGlobalField ++
      tag.attrs.required.map renderRequiredField ++
      tag.attrs.optional.map renderOptionalField ∧
    (∀ a ∈ TAG_SCHEMA.global_attrs, strStartsWith a.type ("Option<") = true) ∧
    (∀ a ∈ tag.attrs.required, strStartsWith a.type ("Option<") = false) ∧
    (∀ a ∈ tag.attrs.optional, strStartsWith (wrapOptional a.type) ("Option<") = true) := by
  have hreq : ∀ t ∈ TAG_SCHEMA.tags, ∀ a ∈ t.attrs.required,
      strStartsWith a.type ("Option<") = false := by decide
  refine ⟨?_, rfl, rfl, by decide, hreq tag htag, fun a _ => wrapOptional_startsWith a.type⟩
  simp [generate_struct_fields_list]
  omega

set_option maxRecDepth 16384 in
/-- C6 (witness) — the field-count conjunct at the `Table` tag. -/
theorem c6_record_fields_witness :
    (generate_struct_fields_list tableTag.attrs TAG_SCHEMA.global_attrs).length =
      TAG_SCHEMA.global_attrs.length + tableTag.attrs.required.length +
      tableTag.attrs.optional.length :=
  (c6_record_fields tableTag (by decide)).1

/-- C7 — for every schema tag, the generated trait implementation's
`headers` accessor is present-logic on the record's `headers` field
exactly when the tag declares a `headers` optional attribute (which in
this schema happens exactly for `TH` and `TD`), and is the constant
absent (`None`) for every other tag. -/
theorem c7_headers_accessor (V : Type) (tag : TagSpec) (htag : tag ∈ TAG_SCHEMA.tags) :
    has_headers tag = (tag.name == "TH" || tag.name == "TD") ∧
    (∀ s : TagState V, has_headers tag = true → headersAccessor tag s = s.headers) ∧
    (∀ s : TagState V, has_headers tag = false → headersAccessor tag s = none) ∧
    headers_impl tag =
      (if has_headers tag then "self.headers.as_ref().map(|v| v.as_slice())" else "None") := by
  have hball : ∀ t ∈ TAG_SCHEMA.tags, has_headers t = (t.name == "TH" || t.name == "TD") := by
    decide
  refine ⟨hball tag htag, ?_, ?_, rfl⟩
  · intro s h
    unfold headersAccessor
    rw [h]
    rfl
  · intro s h
    unfold headersAccessor
    rw [h]
    rfl

set_option maxRecDepth 16384 in
/-- C7 (witness) — the declaration test at the `TH` tag. -/
theorem c7_headers_accessor_witness :
    has_headers thTag = (thTag.name == "TH" || thTag.name == "TD") :=
  (c7_headers_accessor Nat thTag (by decide)).1

/-- C8 — the facade emits exactly one entry point per tag (tag names are
unique in the schema, so exactly one facade entry carries each tag's
name): a `pub fn` taking exactly the tag's required attributes in schema
order when the tag has required attributes, a zero-argument `pub const`
otherwise; in both branches the produced value is the `TagKind` union
variant named after the tag holding that tag's record. -/
theorem c8_facade (tag : TagSpec) (htag : tag ∈ TAG_SCHEMA.tags) :
    (TAG_SCHEMA.tags.filter (fun t => t.name == tag.name)).length = 1 ∧
    (tag.attrs.required ≠ [] →
      conv_entry tag =
        "\n    /// " ++ conv_doc tag ++ "\n    pub fn " ++ tag.name ++ "(" ++
        joinSep ", " (conv_params tag) ++ ") -> TagKind \x7b\n        TagKind::" ++
        tag.name ++ "(" ++ conv_init tag ++ ")\n    \x7d" ∧
      conv_params tag = tag.attrs.required.map (fun a => a.name ++ ": " ++ a.type) ∧
      conv_init tag = struct_name tag ++ "::new(" ++
        joinSep ", " (tag.attrs.required.map (fun a => a.name)) ++ ")") ∧
    (tag.attrs.required = [] →
      conv_entry tag =
        "\n    /// " ++ conv_doc tag ++ "\n    pub const " ++ tag.name ++
        ": TagKind = TagKind::" ++ tag.name ++ "(" ++ struct_name tag ++ " \x7b\n" ++
        joinSep "\n" (conv_const_inits tag) ++ "\n    \x7d);") ∧
    generate_convenience_constructors TAG_SCHEMA =
      "\n/// Convenience constructors for tags.\npub struct Tag;\n\nimpl Tag \x7b" ++
      joinSep "" (TAG_SCHEMA.tags.map conv_entry) ++ "\n\x7d" := by
  have huniq : ∀ t ∈ TAG_SCHEMA.tags,
      (TAG_SCHEMA.tags.filter (fun u => u.name == t.name)).length = 1 := by decide
  refine ⟨huniq tag htag, ?_, ?_, rfl⟩
  · intro h
    have hne : tag.attrs.required.isEmpty = false := by
      simpa [List.isEmpty_iff] using h
    refine ⟨?_, rfl, ?_⟩
    · unfold conv_entry
      rw [hne]
      rfl
    · unfold conv_init
      rw [hne]
      rfl
  · intro h
    have he : tag.attrs.required.isEmpty = true := by
      simp [List.isEmpty_iff, h]
    unfold conv_entry
    rw [he]
    rfl

set_option maxRecDepth 16384 in
/-- C8 (witness) — the uniqueness conjunct at the `L` tag. -/
theorem c8_facade_witness :
    (TAG_SCHEMA.tags.filter (fun t => t.name == lTag.name)).length = 1 :=
  (c8_facade lTag (by decide)).1

/-- The tag named `BlockQuote` of the schema. -/
def blockQuoteTag : TagSpec := TAGS.getD 3 ⟨"", "", {}⟩

/-- C10 — the name transformer never reaches the output: every emitted
identifier is the schema's name string verbatim — the record type name is
the tag name with `Tag` appended, the union-variant name, `inner()` match
arm and facade entry-point name are the tag name unchanged, field lines
use the attribute name unchanged, and setters are `with_` plus the
attribute name — while `snake_case` itself would have rewritten a
camel-case tag name such as `BlockQuote`, showing it is not applied. -/
theorem c10_verbatim_identifiers (tag : TagSpec) (_htag : tag ∈ TAG_SCHEMA.tags) :
    struct_name tag = tag.name ++ "Tag" ∧
    variantDecl tag =
      "\n    /// " ++ variantDoc tag.doc ++ "\n    " ++ tag.name ++ "(" ++
      struct_name tag ++ ")," ∧
    innerArm tag = "            TagKind::" ++ tag.name ++ "(tag) => tag," ∧
    fromImpl tag =
      "\nimpl From<" ++ struct_name tag ++ "> for TagKind \x7b\n    fn from(tag: " ++
      struct_name tag ++ ") -> Self \x7b\n        TagKind::" ++ tag.name ++
      "(tag)\n    \x7d\n\x7d" ∧
    (∀ a ∈ tag.attrs.optional, setter_name a = "with_" ++ a.name ∧
      renderOptionalField a =
        "    /// " ++ (a.doc.getD ("The " ++ a.name ++ " attribute")) ++ "\n" ++
        "    pub " ++ a.name ++ ": " ++ wrapOptional a.type ++ ",") ∧
    snake_case (("BlockQuote").data) ≠ ("BlockQuote").data := by
  exact ⟨rfl, rfl, rfl, rfl, fun a _ => ⟨rfl, rfl⟩, by decide⟩

set_option maxRecDepth 16384 in
/-- C10 (witness) — the record-type-name conjunct at the `BlockQuote`
tag, whose camel-case name `snake_case` would have rewritten. -/
theorem c10_verbatim_identifiers_witness :
    struct_name blockQuoteTag = blockQuoteTag.name ++ "Tag" :=
  (c10_verbatim_identifiers blockQuoteTag (by decide)).1

end GenTags
